import Mathlib

/-!
Shallow embedding of `llama_panel.py`: the reasoning/tool-dispatch
orchestrator (`ExpertSystem.get_consensus_answer`), the panel coordinator
(`ExpertSystem._query_panel`, `PanelMember.query`) and the JSON tool-call
protocol. External collaborators (the ollama inference client, the web
search and page-fetch adapters) are modelled as oracle functions supplied
through an environment record; everything the Python source computes
itself is translated directly.
-/

namespace LlamaPanel

/-! ## JSON values, as produced by Python's `json.loads`

`num` keeps the validated numeric literal text (the claims never depend on
numeric values, only on whether a parse succeeds and on object structure).
`obj` keeps the member list in source order; lookups take the last
occurrence of a key, matching Python dict construction where a later
duplicate key overwrites an earlier one. -/

inductive Json where
  | null : Json
  | bool (b : Bool) : Json
  | num (lit : String) : Json
  | str (s : String) : Json
  | arr (xs : List Json) : Json
  | obj (fields : List (String × Json)) : Json
deriving Repr

/-- Whitespace accepted between JSON tokens (RFC 8259, as in Python json). -/
def isJsonWs (c : Char) : Bool :=
  c == ' ' || c == '\t' || c == '\n' || c == '\r'

def skipWs : List Char → List Char
  | [] => []
  | c :: cs => if isJsonWs c then skipWs cs else c :: cs

def hexVal (c : Char) : Option Nat :=
  if '0' ≤ c ∧ c ≤ '9' then some (c.toNat - '0'.toNat)
  else if 'a' ≤ c ∧ c ≤ 'f' then some (c.toNat - 'a'.toNat + 10)
  else if 'A' ≤ c ∧ c ≤ 'F' then some (c.toNat - 'A'.toNat + 10)
  else none

/-- Decode the four hex digits of a `\uXXXX` escape. -/
def hex4 (a b c d : Char) : Option Nat := do
  let x ← hexVal a
  let y ← hexVal b
  let z ← hexVal c
  let w ← hexVal d
  return ((x * 16 + y) * 16 + z) * 16 + w

/-- Body of a JSON string after the opening quote, accumulating decoded
characters in reverse. Escapes follow Python's strict json decoder; a
high/low surrogate pair written as two `\uXXXX` escapes is combined. A
lone surrogate (kept verbatim by Python) has no Lean `Char`; it decodes
to the replacement of `Char.ofNat`, a divergence no claim touches. -/
def parseStrChars : Nat → List Char → List Char → Option (String × List Char)
  | 0, _, _ => none
  | fuel + 1, acc, cs =>
    match cs with
    | '"' :: rest => some (String.mk acc.reverse, rest)
    | '\\' :: 'u' :: a :: b :: c :: d :: rest =>
      match hex4 a b c d with
      | none => none
      | some n =>
        if 0xD800 ≤ n ∧ n ≤ 0xDBFF then
          match rest with
          | '\\' :: 'u' :: e :: f :: g :: h :: rest2 =>
            match hex4 e f g h with
            | some m =>
              if 0xDC00 ≤ m ∧ m ≤ 0xDFFF then
                parseStrChars fuel
                  (Char.ofNat (0x10000 + (n - 0xD800) * 0x400 + (m - 0xDC00)) :: acc) rest2
              else parseStrChars fuel (Char.ofNat m :: Char.ofNat n :: acc) rest2
            | none => none
          | _ => parseStrChars fuel (Char.ofNat n :: acc) rest
        else parseStrChars fuel (Char.ofNat n :: acc) rest
    | '\\' :: e :: rest =>
      if e == '"' then parseStrChars fuel ('"' :: acc) rest
      else if e == '\\' then parseStrChars fuel ('\\' :: acc) rest
      else if e == '/' then parseStrChars fuel ('/' :: acc) rest
      else if e == 'b' then parseStrChars fuel ('\x08' :: acc) rest
      else if e == 'f' then parseStrChars fuel ('\x0C' :: acc) rest
      else if e == 'n' then parseStrChars fuel ('\n' :: acc) rest
      else if e == 'r' then parseStrChars fuel ('\r' :: acc) rest
      else if e == 't' then parseStrChars fuel ('\t' :: acc) rest
      else none
    | c :: rest =>
      if c.toNat < 0x20 then none else parseStrChars fuel (c :: acc) rest
    | [] => none

/-- Body of a JSON string after the opening quote; the fuel one beyond the
input length always suffices because every step consumes a character. -/
def parseStr (acc : List Char) (cs : List Char) : Option (String × List Char) :=
  parseStrChars (cs.length + 1) acc cs

/-- Digit run at the head of the input. -/
def spanDigits (cs : List Char) : List Char × List Char :=
  cs.span Char.isDigit

/-- Optional fraction part `.digits`; `none` on a bare dot (invalid). -/
def parseFrac (cs : List Char) : Option (String × List Char) :=
  match cs with
  | '.' :: r =>
    let (ds, r2) := spanDigits r
    if ds.isEmpty then none else some (String.mk ('.' :: ds), r2)
  | _ => some ("", cs)

/-- Optional exponent part `e[+-]digits`; `none` when digits are missing. -/
def parseExp (cs : List Char) : Option (String × List Char) :=
  match cs with
  | e :: r =>
    if e == 'e' || e == 'E' then
      let (sgn, r1) := match r with
        | '+' :: r1 => ("+", r1)
        | '-' :: r1 => ("-", r1)
        | _ => ("", r)
      let (ds, r2) := spanDigits r1
      if ds.isEmpty then none else some (String.mk [e] ++ sgn ++ String.mk ds, r2)
    else some ("", cs)
  | [] => some ("", cs)

/-- JSON number literal: `-? (0 | [1-9][0-9]*) frac? exp?`. The literal
text is returned; a leading-zero run such as `01` parses its `0` and the
stray digit then fails at the caller, exactly as Python reports an error
for the whole document. -/
def parseNumber (cs : List Char) : Option (String × List Char) :=
  let (sign, cs1) := match cs with
    | '-' :: r => ("-", r)
    | _ => ("", cs)
  match cs1 with
  | c :: r =>
    if c == '0' then do
      let (f, r2) ← parseFrac r
      let (e, r3) ← parseExp r2
      return (sign ++ "0" ++ f ++ e, r3)
    else if c.isDigit then do
      let (ds, r1) := spanDigits (c :: r)
      let (f, r2) ← parseFrac r1
      let (e, r3) ← parseExp r2
      return (sign ++ String.mk ds ++ f ++ e, r3)
    else none
  | [] => none

mutual

/-- One JSON value, fuel-bounded recursive descent over the remaining
characters. Mirrors Python `json.loads` syntax, including the non-standard
constants `NaN`, `Infinity` and `-Infinity` that Python accepts. -/
def parseVal : Nat → List Char → Option (Json × List Char)
  | 0, _ => none
  | fuel + 1, cs0 =>
    match skipWs cs0 with
    | '"' :: r =>
      match parseStr [] r with
      | some (s, r2) => some (.str s, r2)
      | none => none
    | '{' :: r =>
      match skipWs r with
      | '}' :: r2 => some (.obj [], r2)
      | r1 =>
        match parseMembers fuel r1 with
        | some (fs, r2) => some (.obj fs, r2)
        | none => none
    | '[' :: r =>
      match skipWs r with
      | ']' :: r2 => some (.arr [], r2)
      | r1 =>
        match parseElems fuel r1 with
        | some (xs, r2) => some (.arr xs, r2)
        | none => none
    | 't' :: 'r' :: 'u' :: 'e' :: r => some (.bool true, r)
    | 'f' :: 'a' :: 'l' :: 's' :: 'e' :: r => some (.bool false, r)
    | 'n' :: 'u' :: 'l' :: 'l' :: r => some (.null, r)
    | 'N' :: 'a' :: 'N' :: r => some (.num "NaN", r)
    | 'I' :: 'n' :: 'f' :: 'i' :: 'n' :: 'i' :: 't' :: 'y' :: r =>
      some (.num "Infinity", r)
    | '-' :: 'I' :: 'n' :: 'f' :: 'i' :: 'n' :: 'i' :: 't' :: 'y' :: r =>
      some (.num "-Infinity", r)
    | cs =>
      match parseNumber cs with
      | some (lit, r) => some (.num lit, r)
      | none => none

/-- Object members from the first key (whitespace already skipped). -/
def parseMembers : Nat → List Char → Option (List (String × Json) × List Char)
  | 0, _ => none
  | fuel + 1, cs =>
    match cs with
    | '"' :: r =>
      match parseStr [] r with
      | some (k, r2) =>
        match skipWs r2 with
        | ':' :: r3 =>
          match parseVal fuel r3 with
          | some (v, r4) =>
            match skipWs r4 with
            | ',' :: r5 =>
              match parseMembers fuel (skipWs r5) with
              | some (fs, r6) => some ((k, v) :: fs, r6)
              | none => none
            | '}' :: r5 => some ([(k, v)], r5)
            | _ => none
          | none => none
        | _ => none
      | none => none
    | _ => none

/-- Array elements from the first element (whitespace already skipped). -/
def parseElems : Nat → List Char → Option (List Json × List Char)
  | 0, _ => none
  | fuel + 1, cs =>
    match parseVal fuel cs with
    | some (v, r) =>
      match skipWs r with
      | ',' :: r2 =>
        match parseElems fuel (skipWs r2) with
        | some (xs, r3) => some (v :: xs, r3)
        | none => none
      | ']' :: r2 => some ([v], r2)
      | _ => none
    | none => none

end

/-- Python `json.loads`: one JSON document, optional surrounding
whitespace, nothing else. `none` models a raised `json.JSONDecodeError`.
Each nesting level consumes at least one character before recursing, so
`length + 1` fuel never runs out on inputs the grammar accepts. -/
def jsonParse (s : String) : Option Json :=
  match parseVal (s.length + 1) s.data with
  | some (v, rest) => if (skipWs rest).isEmpty then some v else none
  | none => none

/-! ## Python-value helpers used by the dispatcher -/

/-- Python `dict.get` on the decoded object: the last occurrence of a key
wins, because duplicate keys in a JSON object overwrite in Python's dict. -/
def dictGet (fields : List (String × Json)) (k : String) : Option Json :=
  (fields.reverse.find? (fun p => p.1 == k)).map Prod.snd

/-- Python `repr()` of a decoded JSON value (what `str()` gives for every
type except `str`). Numeric values render as their literal text — Python
would canonicalize a float literal such as `1e2` to `100.0`; no claim
involves a numeric payload. -/
def pyRepr : Json → String
  | .null => "None"
  | .bool true => "True"
  | .bool false => "False"
  | .num lit => lit
  | .str s => "'" ++ s ++ "'"
  | .arr xs => "[" ++ String.intercalate ", " (xs.attach.map (fun x => pyRepr x.1)) ++ "]"
  | .obj fs => "\x7b" ++ String.intercalate ", "
      (fs.attach.map (fun p => "'" ++ p.1.1 ++ "': " ++ pyRepr p.1.2)) ++ "\x7d"
decreasing_by
  · have h := List.sizeOf_lt_of_mem x.2
    simp only [Json.arr.sizeOf_spec]
    omega
  · have h := List.sizeOf_lt_of_mem p.2
    obtain ⟨⟨k, v⟩, hp⟩ := p
    simp only [Prod.mk.sizeOf_spec] at h
    simp only [Json.obj.sizeOf_spec]
    omega

/-- Python `str()` of a decoded JSON value, as interpolated by the
source's f-strings and printed by `print`. -/
def pyStr : Json → String
  | .str s => s
  | v => pyRepr v

/-- The Python type name of a decoded JSON value, as it appears in the
`AttributeError` raised by `value.get(...)` on a non-dict. -/
def pyTypeName : Json → String
  | .null => "NoneType"
  | .bool _ => "bool"
  | .num lit => if lit.data.all (fun c => c.isDigit || c == '-') then "int" else "float"
  | .str _ => "str"
  | .arr _ => "list"
  | .obj _ => "dict"

/-- Python `tool_name == "…"` where `tool_name = tool_call.get("tool")`:
true exactly when the field is present and is that very string (`None` and
every non-string decoded value compare unequal to a `str`). -/
def toolNameIs (toolName : Option Json) (s : String) : Bool :=
  match toolName with
  | some (.str t) => t == s
  | _ => false

/-- `tool_call.get(key, default)` followed by Python string interpolation
of the result. -/
def getStrD (fields : List (String × Json)) (k : String) (dflt : String) : String :=
  match dictGet fields k with
  | some v => pyStr v
  | none => dflt

/-- `tool_call.get("reason", None)` as the f-strings interpolate it: a
missing reason renders as Python's `str(None)`. -/
def reasonStrOf (fields : List (String × Json)) : String :=
  match dictGet fields "reason" with
  | some v => pyStr v
  | none => "None"

/-! ## The inference adapter's reply object -/

/-- What one `client.chat` call returns: the assistant text
(`response['message']['content']`) and the optional reasoning trace
(`response['message']` may or may not carry a `thinking` entry). -/
structure ChatResponse where
  content : String
  thinking : Option String := none

/-- Python `str()` of the whole chat-response object, as executed by the
source's `print(response)` statements (lines 178 and 186). Modelled from
the ollama adapter's observable rendering: the response renders as its
fields, with the assistant text quoted inside a `message=Message(...)`
fragment — it is never the bare assistant text. Only the fact that the
rendering wraps the assistant text in this fixed non-empty context is used
by the development. -/
def chatResponseStr (r : ChatResponse) : String :=
  "message=Message(role='assistant', content='" ++ r.content ++ "')"

/-! ## Panel members and the panel coordinator -/

/-- One panel member: a model identifier and a sampling temperature. The
temperature only ever reaches diagnostic narration and the inference
adapter; it is carried as an opaque rendering. -/
structure PanelMember where
  model : String
  temperature : String := "0.5"

/-- How one panel member's `client.chat` call concludes, seen at the
boundary of the inference adapter. -/
inductive MemberCallResult where
  | reply (content : String)
  | responseError (err : String)
  | otherException (text : String)

/-- `PanelMember.query`: the model reply on success; a fixed error string
when the client raises `ollama.ResponseError` (caught inside `query`,
lines 102–104); any other exception propagates, to be captured by the
coordinator's `asyncio.gather(..., return_exceptions=True)`. -/
def PanelMember.queryResult (m : PanelMember) (call : MemberCallResult) :
    Except String String :=
  match call with
  | .reply c => .ok c
  | .responseError _ =>
    .ok ("Error: Could not get a response from model '" ++ m.model ++ "'.")
  | .otherException t => .error t

/-- The combined prompt of `_query_panel` (line 120): the question alone
when the joined context is empty (Python truthiness of the joined string),
otherwise the question followed by the rendered context block. -/
def panelPromptOf (question : String) (toolOutputs : List String) : String :=
  let context := String.intercalate "\n\n" toolOutputs
  if context = "" then question
  else question ++ "\n\nContext from previous tool outputs:\n" ++ context

/-- How `_query_panel` renders one member's result (line 124). -/
def renderPanelResponse (m : PanelMember) (res : Except String String) : String :=
  match res with
  | .ok resp => "Response from '" ++ m.model ++ "':\n" ++ resp
  | .error exc => "Exception from panelist " ++ m.model ++ ": " ++ exc

/-- `ExpertSystem._query_panel` (lines 117–127): fan the identical prompt
out to every member, gather each result or captured exception, render the
sections in registration order and join them. `memberChat` is the
inference oracle for the member at each panel position. -/
def queryPanel (memberChat : Nat → String → MemberCallResult)
    (panel : List PanelMember) (question : String) (toolOutputs : List String) :
    String :=
  let panelPrompt := panelPromptOf question toolOutputs
  let sections := panel.enum.map fun p =>
    renderPanelResponse p.2 (p.2.queryResult (memberChat p.1 panelPrompt))
  String.intercalate "\n\n---\n\n" sections

/-! ## The reasoning orchestrator -/

/-- One turn of the conversation history. -/
structure Message where
  role : String
  content : String
deriving DecidableEq

/-- The module-level `EXPERT_SYSTEM_PROMPT` (the session's system turn is
this text plus the rendered current date). -/
def EXPERT_SYSTEM_PROMPT : String :=
"
You are a master expert AI, the coordinator of a panel of other AI experts. Your goal is to provide a single, comprehensive, consensus-based answer. Avoid relying on any single source or tool, and instead synthesize information from multiple perspectives.

**IMPORTANT CONTEXT**: You and your panel members are offline Large Language Models with knowledge limited to training data from the past. To overcome this, you have access to tools to ask the other models questions and to search the internet.

Your workflow for each user query is as follows:
1.  **Plan**: Understand the user's request. Decide if you can answer it with very high confidence or if you need to gather information using your tools.
2.  **Act with Tools**: If you need more information, choose the best tool for the job. You must respond with a single JSON object to use a tool.
    - `search_web(query, reason)`: Use search engine to get search results for webpages that contain current information or verify facts on the web. Search results only include title, description, and URL only and you must call `read_webpage`on two or more URLs to get and understand their full content.
    - `read_webpage(url, reason)`: Read the webpage specified by the URL to get more information about one of the search results. This is necessary because `search_web` only provides titles, descriptions, and URLs.
    - `llama_panel(question, reason)`: Ask a specific question to the panel for diverse answers. The panel's information is limited to their training data and information you share in your question.
3.  **Synthesize and Check**: Once you have gathered sufficient information, synthesize your best answer based on your knowledge and all gathered information. Confirm your complete answer with the panel with `llama_panel(question, reason)`.
4.  **Finalize**: Considering your answer and panel's feedback, return a final, conclusive answer. You must responsd with a single JSON object using tool `final_answer(answer)`.

Because `search_web` only gives you title, description and URL about each page, you must call `read_webpage` on two or more of the URLs to fetch and understand thier content.

For any tool selection, always include a \"reason\" field explaining why you chose that tool in a single sentence.

You only have 10 steps to reach a final answer. If you cannot reach a consensus in 10 steps, return your best answer to that point.

**Available Responses**:
- `\x7b\"tool\": \"llama_panel\", \"question\": \"Your question to the panel\", \"reason\": \"Why you chose to consult the panel\"\x7d`
- `\x7b\"tool\": \"search_web\", \"query\": \"Your search query\", \"reason\": \"Why you chose to search the web\"\x7d`
- `\x7b\"tool\": \"read_webpage\", \"url\": \"A specific URL from the search results\", \"reason\": \"Why you chose to read this webpage\"\x7d`
- `\x7b\"tool\": \"final_answer\", \"answer\": \"Your final, well-reasoned consensus answer.\"\x7d`

Always respond with one of the Available Responses above in the prescribed JSON format. Response must include \"tool\" field with the tool name, and \"reason\" field explaining why you chose that tool in a single sentence.
"

/-- Terminal outcomes of one reasoning session (§4.1 of the design).
`RawFallback` carries what the fallback path printed; `UnknownTool`
carries `tool_call.get("tool")` as the source read it. -/
inductive Outcome where
  | Concluded (answer : String)
  | RawFallback (printed : String)
  | UnknownTool (name : Option Json)
  | StepsExhausted

/-- A Python exception escaping `get_consensus_answer`: the only handler
inside the loop catches `json.JSONDecodeError` alone, so the
`AttributeError` from `tool_call.get(...)` on a non-dict value passes
through to `main`'s top-level handler. -/
inductive PyExn where
  | attributeError (msg : String)

/-- State of one session: the conversation history, the accumulated tool
outputs, and everything printed to the primary output stream so far (one
entry per `print` call; `cprint(..., file=sys.stderr)` narration belongs
to the secondary stream and is not part of the model). -/
structure RunState where
  history : List Message
  toolOutputs : List String
  stdout : List String

/-- How one loop iteration ends: fall through to the next step, leave the
function with a terminal outcome, or let an exception escape. -/
inductive StepOut where
  | continued (st : RunState)
  | finished (st : RunState) (outcome : Outcome)
  | raised (st : RunState) (exn : PyExn)

/-- The state carried out of a step, whichever way it ended. -/
def StepOut.state : StepOut → RunState
  | .continued st => st
  | .finished st _ => st
  | .raised st _ => st

/-- External collaborators (§6): the expert's inference client, the two
retrieval adapters — total functions, because the source catches every
exception inside `search_web` and `read_webpage` and returns a string —
and the per-member inference calls, indexed by panel position. Model
names, temperatures and the think option select which oracle is supplied;
they do not otherwise enter the control flow. -/
structure Env where
  chat : List Message → ChatResponse
  searchWeb : String → String
  readWebpage : String → String
  memberChat : Nat → String → MemberCallResult

/-- Lines 181–183: a truthy (non-empty) tool output is appended to the
history as a `tool` turn and pushed onto the accumulated outputs. -/
def appendToolOutput (st : RunState) (toolOutput : String) : RunState :=
  if toolOutput = "" then st
  else { st with
    history := st.history ++ [⟨"tool", toolOutput⟩],
    toolOutputs := st.toolOutputs ++ [toolOutput] }

/-- Lines 141–142: with `verbose` set and a thinking entry present, the
trace is surfaced through a plain `print` — that is, on the primary
stream. -/
def thinkPrints (verbose : Bool) (response : ChatResponse) : List String :=
  match verbose, response.thinking with
  | true, some t => ["\n--- Expert Thinking ---\n" ++ t ++ "\n"]
  | _, _ => []

/-- One iteration of the reasoning loop (lines 133–187): query the expert,
optionally surface the thinking trace, append the assistant turn, then
parse and dispatch the tool call. -/
def stepOnce (env : Env) (panel : List PanelMember) (verbose : Bool)
    (st : RunState) : StepOut :=
  let response := env.chat st.history
  let st1 : RunState :=
    { st with stdout := st.stdout ++ thinkPrints verbose response }
  let st2 : RunState :=
    { st1 with history := st1.history ++ [⟨"assistant", response.content⟩] }
  match jsonParse response.content with
  | none =>
    .finished { st2 with stdout := st2.stdout ++ [chatResponseStr response] }
      (.RawFallback (chatResponseStr response))
  | some (.obj fields) =>
    let toolName := dictGet fields "tool"
    let reasonStr := reasonStrOf fields
    if toolNameIs toolName "llama_panel" then
      let question := getStrD fields "question" ""
      let toolOutput := "Using llama_panel(" ++ question ++ ") with reason '"
          ++ reasonStr ++ "'.\nOutput:\n"
          ++ queryPanel env.memberChat panel question st2.toolOutputs
      .continued (appendToolOutput st2 toolOutput)
    else if toolNameIs toolName "search_web" then
      let query := getStrD fields "query" ""
      let toolOutput := "Using search_web(" ++ query ++ ") with reason '"
          ++ reasonStr ++ "'.\nOutput:\n" ++ env.searchWeb query
      .continued (appendToolOutput st2 toolOutput)
    else if toolNameIs toolName "read_webpage" then
      let url := getStrD fields "url" ""
      let toolOutput := "Using read_webpage(" ++ url ++ ") with reason '"
          ++ reasonStr ++ "'.\nOutput:\n" ++ env.readWebpage url
      .continued (appendToolOutput st2 toolOutput)
    else if toolNameIs toolName "final_answer" then
      let answer := getStrD fields "answer" "No answer provided."
      .finished { st2 with stdout := st2.stdout ++ [answer] } (.Concluded answer)
    else
      .finished { st2 with stdout := st2.stdout ++ [chatResponseStr response] }
        (.UnknownTool toolName)
  | some v =>
    .raised st2 (.attributeError
      ("'" ++ pyTypeName v ++ "' object has no attribute 'get'"))

/-- The `for i in range(self.max_reasoning_steps)` loop plus the
fall-through exhaustion notice (lines 132–190). Returns the final state,
how many loop iterations were entered, and the outcome or the escaped
exception. -/
def runLoop (env : Env) (panel : List PanelMember) (verbose : Bool) :
    Nat → RunState → RunState × Nat × Except PyExn Outcome
  | 0, st =>
    ({ st with stdout := st.stdout ++
        ["The expert could not reach a consensus in the allowed number of steps."] },
     0, .ok .StepsExhausted)
  | fuel + 1, st =>
    match stepOnce env panel verbose st with
    | .continued st' =>
      let (st'', n, r) := runLoop env panel verbose fuel st'
      (st'', n + 1, r)
    | .finished st' o => (st', 1, .ok o)
    | .raised st' e => (st', 1, .error e)

/-- The seeded history a session starts from (line 130): the system turn
(the expert prompt plus the rendered current date) and the user turn. -/
def initialHistory (userPrompt now : String) : List Message :=
  [⟨"system", EXPERT_SYSTEM_PROMPT ++ "Current date: " ++ now⟩,
   ⟨"user", userPrompt⟩]

/-- What one whole session leaves behind. -/
structure RunResult where
  state : RunState
  steps : Nat
  result : Except PyExn Outcome

/-- `ExpertSystem.get_consensus_answer` (lines 129–190). `now` stands for
the rendered `datetime.now()`. The `write_convo` flag only writes a
transcript file and prints to stderr after the final answer is already on
the primary stream, touching none of the modelled observables, so it is
not a parameter here. -/
def getConsensusAnswer (env : Env) (panel : List PanelMember) (maxSteps : Nat)
    (verbose : Bool) (userPrompt : String) (now : String) : RunResult :=
  let out := runLoop env panel verbose maxSteps ⟨initialHistory userPrompt now, [], []⟩
  ⟨out.1, out.2.1, out.2.2⟩

/-- The single-question path of `main` (lines 214–230): a session that
returns normally lets the process end with exit code 0; an exception
escaping it is caught by the top-level `except Exception` handler, which
reports to stderr and calls `sys.exit(1)`. -/
def mainExitCode (r : RunResult) : Nat :=
  match r.result with
  | .ok _ => 0
  | .error _ => 1

/-! ## Concrete scenario material -/

/-- An environment whose expert always gives the same reply and whose
adapters echo their inputs; the specification's concrete scenarios
instantiate it. -/
def constEnv (reply : String) (think : Option String := none) : Env :=
  { chat := fun _ => ⟨reply, think⟩
    searchWeb := fun q => "search results for " ++ q
    readWebpage := fun u => "page text of " ++ u
    memberChat := fun _ _ => .reply "panel opinion" }

/-- The malformed (non-JSON) expert reply of the fallback scenario. -/
def rawReply : String := "I think the answer is 42"

/-- The reply of the step-exhaustion scenario. -/
def searchReply : String := "\x7b\"tool\":\"search_web\",\"query\":\"x\",\"reason\":\"r\"\x7d"

/-- The reply of the unknown-tool scenario. -/
def flyToMoonReply : String := "\x7b\"tool\":\"fly_to_moon\"\x7d"

/-- The reply of the final-answer round-trip scenario. -/
def final42Reply : String := "\x7b\"tool\":\"final_answer\",\"answer\":\"42\"\x7d"

/-- A final answer whose `answer` field is present but empty. -/
def emptyAnswerReply : String := "\x7b\"tool\":\"final_answer\",\"answer\":\"\"\x7d"

/-- A final answer with no `answer` field at all. -/
def missingAnswerReply : String := "\x7b\"tool\":\"final_answer\"\x7d"

/-- A reply that is valid JSON but not a JSON object. -/
def nonObjectReply : String := "42"

/-! ## Helper lemmas -/

theorem str_eq_empty_of_length_eq_zero {s : String} (h : s.length = 0) : s = "" := by
  cases s with
  | mk data =>
    cases data with
    | nil => rfl
    | cons c cs => simp [String.length] at h

theorem append_ne_empty_left (a b : String) (ha : a ≠ "") : a ++ b ≠ "" := by
  intro h
  have hl := congrArg String.length h
  rw [String.length_append] at hl
  have h0 : ("" : String).length = 0 := rfl
  rw [h0] at hl
  exact ha (str_eq_empty_of_length_eq_zero (by omega))

theorem intercalate_go_length (s : String) :
    ∀ (l : List String) (acc : String),
      acc.length ≤ (String.intercalate.go acc s l).length := by
  intro l
  induction l with
  | nil => intro acc; simp [String.intercalate.go]
  | cons a as ih =>
    intro acc
    have h := ih (acc ++ s ++ a)
    rw [String.intercalate.go]
    have : acc.length ≤ (acc ++ s ++ a).length := by
      rw [String.length_append, String.length_append]
      omega
    omega

theorem intercalate_cons_ne_empty (sep a : String) (l : List String)
    (ha : a ≠ "") : String.intercalate sep (a :: l) ≠ "" := by
  intro h
  have h1 : a.length ≤ (String.intercalate sep (a :: l)).length := by
    simpa [String.intercalate] using intercalate_go_length sep l a
  rw [h] at h1
  have h2 : a.length = 0 := by
    simpa using h1
  exact ha (str_eq_empty_of_length_eq_zero h2)

theorem chatResponseStr_ne_content (r : ChatResponse) :
    chatResponseStr r ≠ r.content := by
  intro h
  have hl := congrArg String.length h
  simp only [chatResponseStr, String.length_append] at hl
  have hpre : 0 < ("message=Message(role='assistant', content='" : String).length := by
    decide
  omega

theorem toolNameIs_ne {o : Option Json} {a b : String}
    (h : toolNameIs o a = true) (hab : a ≠ b) : toolNameIs o b = false := by
  cases o with
  | none => simp [toolNameIs] at h
  | some v =>
    cases v with
    | str t =>
      simp only [toolNameIs, beq_iff_eq] at h ⊢
      simp [h, hab]
    | null => simp [toolNameIs] at h
    | bool x => simp [toolNameIs] at h
    | num x => simp [toolNameIs] at h
    | arr x => simp [toolNameIs] at h
    | obj x => simp [toolNameIs] at h

theorem stepOnce_history_grows (env : Env) (panel : List PanelMember)
    (verbose : Bool) (st : RunState) :
    st.history <+: (stepOnce env panel verbose st).state.history := by
  simp only [stepOnce, appendToolOutput]
  repeat' split
  all_goals simp only [StepOut.state]
  all_goals (try simp only [List.append_assoc])
  all_goals exact List.prefix_append _ _

theorem runLoop_history_grows (env : Env) (panel : List PanelMember)
    (verbose : Bool) : ∀ (fuel : Nat) (st : RunState),
    st.history <+: (runLoop env panel verbose fuel st).1.history := by
  intro fuel
  induction fuel with
  | zero => intro st; exact List.prefix_rfl
  | succ n ih =>
    intro st
    have hstep := stepOnce_history_grows env panel verbose st
    simp only [runLoop]
    cases h : stepOnce env panel verbose st with
    | continued st' =>
      rw [h] at hstep
      simp only [StepOut.state] at hstep
      exact hstep.trans (ih st')
    | finished st' o =>
      rw [h] at hstep
      exact hstep
    | raised st' e =>
      rw [h] at hstep
      exact hstep

theorem runLoop_steps_le (env : Env) (panel : List PanelMember)
    (verbose : Bool) : ∀ (fuel : Nat) (st : RunState),
    (runLoop env panel verbose fuel st).2.1 ≤ fuel := by
  intro fuel
  induction fuel with
  | zero => intro st; simp [runLoop]
  | succ n ih =>
    intro st
    simp only [runLoop]
    cases h : stepOnce env panel verbose st with
    | continued st' => exact Nat.succ_le_succ (ih st')
    | finished st' o => simp
    | raised st' e => simp

theorem runLoop_finished_eq (env : Env) (panel : List PanelMember)
    (verbose : Bool) (st st' : RunState) (o : Outcome) (fuel : Nat)
    (h : stepOnce env panel verbose st = .finished st' o) :
    runLoop env panel verbose (fuel + 1) st = (st', 1, .ok o) := by
  simp only [runLoop, h]

theorem runLoop_raised_eq (env : Env) (panel : List PanelMember)
    (verbose : Bool) (st st' : RunState) (e : PyExn) (fuel : Nat)
    (h : stepOnce env panel verbose st = .raised st' e) :
    runLoop env panel verbose (fuel + 1) st = (st', 1, .error e) := by
  simp only [runLoop, h]

theorem stepOnce_toolOutputs_ne_empty (env : Env) (panel : List PanelMember)
    (verbose : Bool) (st : RunState)
    (hin : ∀ s ∈ st.toolOutputs, s ≠ "") :
    ∀ s ∈ (stepOnce env panel verbose st).state.toolOutputs, s ≠ "" := by
  simp only [stepOnce, appendToolOutput]
  repeat' split
  all_goals simp only [StepOut.state]
  all_goals intro s hs
  all_goals first
    | exact hin s hs
    | (rcases List.mem_append.mp hs with h | h
       · exact hin s h
       · rw [List.mem_singleton.mp h]; assumption)

theorem thinkPrints_false (r : ChatResponse) : thinkPrints false r = [] := rfl

theorem stepOnce_quiet_continued (env : Env) (panel : List PanelMember)
    (st st' : RunState) (h : stepOnce env panel false st = .continued st') :
    st'.stdout = st.stdout := by
  revert h
  simp only [stepOnce, appendToolOutput, thinkPrints_false, List.append_nil]
  repeat' split
  all_goals intro h
  all_goals first
    | exact StepOut.noConfusion h
    | (injection h with h1; subst h1; simp)

theorem stepOnce_quiet_finished (env : Env) (panel : List PanelMember)
    (st st' : RunState) (o : Outcome)
    (h : stepOnce env panel false st = .finished st' o) :
    ∃ m, st'.stdout = st.stdout ++ [m] := by
  revert h
  simp only [stepOnce, appendToolOutput, thinkPrints_false, List.append_nil]
  repeat' split
  all_goals intro h
  all_goals first
    | exact StepOut.noConfusion h
    | (injection h with h1 h2; subst h1; simp only [List.append_nil]; exact ⟨_, rfl⟩)

theorem stepOnce_quiet_raised (env : Env) (panel : List PanelMember)
    (st st' : RunState) (e : PyExn)
    (h : stepOnce env panel false st = .raised st' e) :
    st'.stdout = st.stdout := by
  revert h
  simp only [stepOnce, appendToolOutput, thinkPrints_false, List.append_nil]
  repeat' split
  all_goals intro h
  all_goals first
    | exact StepOut.noConfusion h
    | (injection h with h1 h2; subst h1; simp)

theorem runLoop_ok_stdout_length (env : Env) (panel : List PanelMember) :
    ∀ (fuel : Nat) (st : RunState) (o : Outcome),
    (runLoop env panel false fuel st).2.2 = .ok o →
    (runLoop env panel false fuel st).1.stdout.length = st.stdout.length + 1 := by
  intro fuel
  induction fuel with
  | zero => intro st o _; simp [runLoop]
  | succ n ih =>
    intro st o h
    simp only [runLoop] at h ⊢
    cases hs : stepOnce env panel false st with
    | continued st' =>
      rw [hs] at h
      have h' : (runLoop env panel false n st').2.2 = .ok o := h
      have hlen : (runLoop env panel false n st').1.stdout.length
          = st'.stdout.length + 1 := ih st' o h'
      have hq := stepOnce_quiet_continued env panel st st' hs
      show (runLoop env panel false n st').1.stdout.length = st.stdout.length + 1
      rw [hlen, hq]
    | finished st' o' =>
      obtain ⟨m, hm⟩ := stepOnce_quiet_finished env panel st st' o' hs
      show st'.stdout.length = st.stdout.length + 1
      rw [hm]
      simp
    | raised st' e =>
      rw [hs] at h
      have h' : (Except.error e : Except PyExn Outcome) = .ok o := h
      exact Except.noConfusion h'

/-! ## Claim theorems -/

/-- C1 (amended): every expert reply that is not parseable as JSON ends the
session non-fatally with outcome `RawFallback` — but what is treated as the
final output and printed to the primary stream is the string rendering of
the whole chat-response object (which embeds the raw reply), not the raw
reply string alone. -/
theorem rawFallback_prints_whole_response (env : Env) (panel : List PanelMember)
    (verbose : Bool) (st : RunState)
    (h : jsonParse (env.chat st.history).content = none) :
    stepOnce env panel verbose st
      = .finished
          { st with
              stdout := st.stdout ++ thinkPrints verbose (env.chat st.history)
                ++ [chatResponseStr (env.chat st.history)],
              history := st.history ++ [⟨"assistant", (env.chat st.history).content⟩] }
          (.RawFallback (chatResponseStr (env.chat st.history)))
      ∧ chatResponseStr (env.chat st.history) ≠ (env.chat st.history).content := by
  refine ⟨?_, chatResponseStr_ne_content _⟩
  simp only [stepOnce, h, List.append_assoc]

/-- C1 witness: the amended behaviour at the concrete malformed reply. -/
theorem rawFallback_prints_whole_response_witness :
    (jsonParse ((constEnv rawReply).chat (initialHistory "Q" "D")).content = none)
    ∧ (stepOnce (constEnv rawReply) [] false ⟨initialHistory "Q" "D", [], []⟩
        = .finished
            ⟨initialHistory "Q" "D" ++ [⟨"assistant", rawReply⟩], [],
             ["message=Message(role='assistant', content='I think the answer is 42')"]⟩
            (.RawFallback
              "message=Message(role='assistant', content='I think the answer is 42')")
      ∧ ("message=Message(role='assistant', content='I think the answer is 42')" : String)
          ≠ rawReply) :=
  ⟨rfl, rawFallback_prints_whole_response (constEnv rawReply) [] false
    ⟨initialHistory "Q" "D", [], []⟩ rfl⟩

/-- C1 counterexample: with the expert replying the non-JSON text
`I think the answer is 42`, the session does end in the raw fallback, but
the message on the primary stream is the rendering of the whole chat
response object, not the raw reply string the claim requires. -/
theorem rawFallback_output_not_raw_reply :
    (getConsensusAnswer (constEnv rawReply) [] 20 false "Q" "D").result
      = .ok (.RawFallback
          "message=Message(role='assistant', content='I think the answer is 42')")
    ∧ (getConsensusAnswer (constEnv rawReply) [] 20 false "Q" "D").state.stdout
      = ["message=Message(role='assistant', content='I think the answer is 42')"]
    ∧ ("message=Message(role='assistant', content='I think the answer is 42')" : String)
      ≠ rawReply := by
  refine ⟨rfl, rfl, ?_⟩
  decide

/-- C2 (amended): every dispatched `final_answer` tool call ends the
session with outcome `Concluded` carrying
`tool_call.get("answer", "No answer provided.")` — a missing `answer`
field becomes the explicit placeholder, while a present-but-empty answer
is kept and printed as the empty string; neither case is a hard failure. -/
theorem final_answer_dispatch (env : Env) (panel : List PanelMember)
    (verbose : Bool) (st : RunState) (fields : List (String × Json))
    (hp : jsonParse (env.chat st.history).content = some (.obj fields))
    (ht : toolNameIs (dictGet fields "tool") "final_answer" = true) :
    stepOnce env panel verbose st
      = .finished
          { st with
              stdout := st.stdout ++ thinkPrints verbose (env.chat st.history)
                ++ [getStrD fields "answer" "No answer provided."],
              history := st.history ++ [⟨"assistant", (env.chat st.history).content⟩] }
          (.Concluded (getStrD fields "answer" "No answer provided."))
      ∧ (dictGet fields "answer" = none →
          getStrD fields "answer" "No answer provided." = "No answer provided.")
      ∧ (∀ s, dictGet fields "answer" = some (.str s) →
          getStrD fields "answer" "No answer provided." = s) := by
  have h1 := toolNameIs_ne ht (by decide : ("final_answer" : String) ≠ "llama_panel")
  have h2 := toolNameIs_ne ht (by decide : ("final_answer" : String) ≠ "search_web")
  have h3 := toolNameIs_ne ht (by decide : ("final_answer" : String) ≠ "read_webpage")
  refine ⟨?_, ?_, ?_⟩
  · simp only [stepOnce, hp, h1, h2, h3, ht, Bool.false_eq_true, if_false, if_true,
      List.append_assoc]
  · intro hnone
    simp [getStrD, hnone]
  · intro s hsome
    simp [getStrD, hsome, pyStr]

/-- C2 witness: a `final_answer` with no `answer` field at all concludes
with the placeholder. -/
theorem final_answer_dispatch_witness :
    (jsonParse ((constEnv missingAnswerReply).chat (initialHistory "Q" "D")).content
        = some (.obj [("tool", Json.str "final_answer")]))
    ∧ (toolNameIs (dictGet [("tool", Json.str "final_answer")] "tool") "final_answer" = true)
    ∧ (stepOnce (constEnv missingAnswerReply) [] false ⟨initialHistory "Q" "D", [], []⟩
        = .finished
            ⟨initialHistory "Q" "D" ++ [⟨"assistant", missingAnswerReply⟩], [],
             ["No answer provided."]⟩
            (.Concluded "No answer provided.")
      ∧ (dictGet [("tool", Json.str "final_answer")] "answer" = none →
          getStrD [("tool", Json.str "final_answer")] "answer" "No answer provided."
            = "No answer provided.")
      ∧ (∀ s, dictGet [("tool", Json.str "final_answer")] "answer" = some (.str s) →
          getStrD [("tool", Json.str "final_answer")] "answer" "No answer provided." = s)) :=
  ⟨rfl, rfl, final_answer_dispatch (constEnv missingAnswerReply) [] false
    ⟨initialHistory "Q" "D", [], []⟩ [("tool", Json.str "final_answer")] rfl rfl⟩

/-- C2 counterexample: a `final_answer` whose `answer` field is present
but empty is not replaced by the placeholder — the session concludes with
the empty string and prints an empty line. -/
theorem empty_answer_not_replaced :
    (getConsensusAnswer (constEnv emptyAnswerReply) [] 20 false "Q" "D").result
      = .ok (.Concluded "")
    ∧ (getConsensusAnswer (constEnv emptyAnswerReply) [] 20 false "Q" "D").state.stdout
      = [""]
    ∧ ("" : String) ≠ "No answer provided." := by
  refine ⟨rfl, rfl, ?_⟩
  decide

/-- C6: an expert reply that parses as a tool call whose tool field is
none of `llama_panel`, `search_web`, `read_webpage`, `final_answer` ends
the session at once with outcome `UnknownTool` carrying that field, and no
further steps execute whatever budget remains. -/
theorem unknown_tool_terminates (env : Env) (panel : List PanelMember)
    (verbose : Bool) (st : RunState) (fields : List (String × Json))
    (hp : jsonParse (env.chat st.history).content = some (.obj fields))
    (h1 : toolNameIs (dictGet fields "tool") "llama_panel" = false)
    (h2 : toolNameIs (dictGet fields "tool") "search_web" = false)
    (h3 : toolNameIs (dictGet fields "tool") "read_webpage" = false)
    (h4 : toolNameIs (dictGet fields "tool") "final_answer" = false) :
    stepOnce env panel verbose st
      = .finished
          { st with
              stdout := st.stdout ++ thinkPrints verbose (env.chat st.history)
                ++ [chatResponseStr (env.chat st.history)],
              history := st.history ++ [⟨"assistant", (env.chat st.history).content⟩] }
          (.UnknownTool (dictGet fields "tool"))
      ∧ (∀ fuel, (runLoop env panel verbose (fuel + 1) st).2.1 = 1
          ∧ (runLoop env panel verbose (fuel + 1) st).2.2
              = .ok (.UnknownTool (dictGet fields "tool"))) := by
  have hstep : stepOnce env panel verbose st
      = .finished
          { st with
              stdout := st.stdout ++ thinkPrints verbose (env.chat st.history)
                ++ [chatResponseStr (env.chat st.history)],
              history := st.history ++ [⟨"assistant", (env.chat st.history).content⟩] }
          (.UnknownTool (dictGet fields "tool")) := by
    simp only [stepOnce, hp, h1, h2, h3, h4, Bool.false_eq_true, if_false,
      List.append_assoc]
  refine ⟨hstep, fun fuel => ?_⟩
  rw [runLoop_finished_eq env panel verbose st _ _ fuel hstep]
  exact ⟨rfl, rfl⟩

/-- C6 witness: the `fly_to_moon` scenario ends with
`UnknownTool "fly_to_moon"` after exactly one step. -/
theorem unknown_tool_terminates_witness :
    (jsonParse ((constEnv flyToMoonReply).chat (initialHistory "Q" "D")).content
        = some (.obj [("tool", Json.str "fly_to_moon")]))
    ∧ (stepOnce (constEnv flyToMoonReply) [] false ⟨initialHistory "Q" "D", [], []⟩
        = .finished
            ⟨initialHistory "Q" "D" ++ [⟨"assistant", flyToMoonReply⟩], [],
             ["message=Message(role='assistant', content='\x7b\"tool\":\"fly_to_moon\"\x7d')"]⟩
            (.UnknownTool (some (Json.str "fly_to_moon")))
      ∧ (∀ fuel,
          (runLoop (constEnv flyToMoonReply) [] false (fuel + 1)
              ⟨initialHistory "Q" "D", [], []⟩).2.1 = 1
          ∧ (runLoop (constEnv flyToMoonReply) [] false (fuel + 1)
              ⟨initialHistory "Q" "D", [], []⟩).2.2
              = .ok (.UnknownTool (some (Json.str "fly_to_moon"))))) :=
  ⟨rfl, unknown_tool_terminates (constEnv flyToMoonReply) [] false
    ⟨initialHistory "Q" "D", [], []⟩ [("tool", Json.str "fly_to_moon")]
    rfl rfl rfl rfl rfl⟩

/-- A parsed reply that is valid JSON but not an object makes the
dispatcher's `tool_call.get("tool")` raise `AttributeError`, which no
handler inside the session catches. -/
theorem stepOnce_nonobject (env : Env) (panel : List PanelMember)
    (verbose : Bool) (st : RunState) (v : Json)
    (hp : jsonParse (env.chat st.history).content = some v)
    (hno : ∀ fields, v ≠ Json.obj fields) :
    stepOnce env panel verbose st
      = .raised
          { st with
              stdout := st.stdout ++ thinkPrints verbose (env.chat st.history),
              history := st.history ++ [⟨"assistant", (env.chat st.history).content⟩] }
          (.attributeError ("'" ++ pyTypeName v ++ "' object has no attribute 'get'")) := by
  cases v with
  | obj fields => exact absurd rfl (hno fields)
  | null => simp only [stepOnce, hp]
  | bool b => simp only [stepOnce, hp]
  | num l => simp only [stepOnce, hp]
  | str s => simp only [stepOnce, hp]
  | arr xs => simp only [stepOnce, hp]

/-- C10: a first reply that is valid JSON but not a JSON object passes the
parse (so no `RawFallback`), then the tool-field access raises an
`AttributeError` that escapes the loop: the session ends with neither a
`RawFallback` nor an `UnknownTool` outcome, nothing is printed to the
primary stream, and the top-level handler exits the process non-zero. -/
theorem nonobject_reply_crashes (env : Env) (panel : List PanelMember)
    (maxSteps : Nat) (q now : String) (v : Json)
    (hs : 1 ≤ maxSteps)
    (hp : jsonParse (env.chat (initialHistory q now)).content = some v)
    (hno : ∀ fields, v ≠ Json.obj fields) :
    (getConsensusAnswer env panel maxSteps false q now).result
      = .error (.attributeError ("'" ++ pyTypeName v ++ "' object has no attribute 'get'"))
    ∧ (getConsensusAnswer env panel maxSteps false q now).state.stdout = []
    ∧ (getConsensusAnswer env panel maxSteps false q now).steps = 1
    ∧ mainExitCode (getConsensusAnswer env panel maxSteps false q now) = 1 := by
  obtain ⟨k, rfl⟩ : ∃ k, maxSteps = k + 1 := ⟨maxSteps - 1, by omega⟩
  have hstep := stepOnce_nonobject env panel false ⟨initialHistory q now, [], []⟩ v hp hno
  have hloop := runLoop_raised_eq env panel false _ _ _ k hstep
  simp only [getConsensusAnswer, mainExitCode, hloop, thinkPrints_false,
    List.append_nil]
  exact ⟨trivial, trivial, trivial, trivial⟩

/-- C10 witness: the reply `42` (valid JSON, not an object) crashes the
session with an `AttributeError` on `int`, prints nothing, and exits 1. -/
theorem nonobject_reply_crashes_witness :
    (1 ≤ 20)
    ∧ (jsonParse ((constEnv nonObjectReply).chat (initialHistory "Q" "D")).content
        = some (Json.num "42"))
    ∧ (pyTypeName (Json.num "42") = "int")
    ∧ ((getConsensusAnswer (constEnv nonObjectReply) [] 20 false "Q" "D").result
        = .error (.attributeError
            ("'" ++ pyTypeName (Json.num "42") ++ "' object has no attribute 'get'"))
      ∧ (getConsensusAnswer (constEnv nonObjectReply) [] 20 false "Q" "D").state.stdout = []
      ∧ (getConsensusAnswer (constEnv nonObjectReply) [] 20 false "Q" "D").steps = 1
      ∧ mainExitCode (getConsensusAnswer (constEnv nonObjectReply) [] 20 false "Q" "D") = 1) :=
  ⟨by decide, rfl, by decide,
    nonobject_reply_crashes (constEnv nonObjectReply) [] 20 "Q" "D" (Json.num "42")
      (by decide) rfl (fun fields h => Json.noConfusion h)⟩

/-- C3: the reasoning loop executes at most `maxSteps` iterations for
every environment, panel and sequence of tool choices, and an expert that
always replies the `search_web` tool call `{"tool":"search_web","query":"x","reason":"r"}`
with a budget of 3 ends with outcome `StepsExhausted` after exactly 3
steps. -/
theorem steps_bounded_and_exhaustion :
    (∀ (env : Env) (panel : List PanelMember) (maxSteps : Nat) (verbose : Bool)
        (q now : String),
      (getConsensusAnswer env panel maxSteps verbose q now).steps ≤ maxSteps)
    ∧ (∀ (panel : List PanelMember) (q now : String),
        (getConsensusAnswer (constEnv searchReply) panel 3 false q now).steps = 3
      ∧ (getConsensusAnswer (constEnv searchReply) panel 3 false q now).result
          = .ok .StepsExhausted) := by
  constructor
  · intro env panel maxSteps verbose q now
    exact runLoop_steps_le env panel verbose maxSteps _
  · intro panel q now
    exact ⟨rfl, rfl⟩

/-- C7 (amended): with `verbose` disabled, every normally terminating
session puts exactly one message on the primary output stream; the
exception the counterexample exhibits is that an enabled `verbose` flag
prints the surfaced thinking trace to the primary stream as well. -/
theorem quiet_run_single_final_message (env : Env) (panel : List PanelMember)
    (maxSteps : Nat) (q now : String) (o : Outcome)
    (h : (getConsensusAnswer env panel maxSteps false q now).result = .ok o) :
    (getConsensusAnswer env panel maxSteps false q now).state.stdout.length = 1 := by
  have hlen := runLoop_ok_stdout_length env panel maxSteps
    ⟨initialHistory q now, [], []⟩ o h
  simpa using hlen

/-- C7 witness: the quiet round-trip prints exactly one message. -/
theorem quiet_run_single_final_message_witness :
    ((getConsensusAnswer (constEnv final42Reply) [] 20 false "Q" "D").result
        = .ok (.Concluded "42"))
    ∧ (getConsensusAnswer (constEnv final42Reply) [] 20 false "Q" "D").state.stdout.length
        = 1 :=
  ⟨rfl, quiet_run_single_final_message (constEnv final42Reply) [] 20 "Q" "D"
    (.Concluded "42") rfl⟩

/-- C7 counterexample: with `verbose` enabled and a thinking trace in the
reply, the trace is printed by a plain `print` — to the primary stream —
so the session's primary stream carries two messages, not one, and the
final answer does not stand alone. -/
theorem verbose_thinking_on_primary_stream :
    (getConsensusAnswer (constEnv final42Reply (some "T")) [] 20 true "Q" "D").state.stdout
      = ["\n--- Expert Thinking ---\nT\n", "42"]
    ∧ (["\n--- Expert Thinking ---\nT\n", "42"] : List String).length ≠ 1 := by
  exact ⟨rfl, by decide⟩

/-- C8: the `final_answer` round-trip with answer `42` ends the session
with outcome `Concluded "42"`, exactly the single line `42` on the primary
stream, in one step, for any positive step budget. -/
theorem final_answer_roundtrip (panel : List PanelMember) (q now : String)
    (maxSteps : Nat) (hs : 1 ≤ maxSteps) :
    (getConsensusAnswer (constEnv final42Reply) panel maxSteps false q now).result
      = .ok (.Concluded "42")
    ∧ (getConsensusAnswer (constEnv final42Reply) panel maxSteps false q now).state.stdout
      = ["42"]
    ∧ (getConsensusAnswer (constEnv final42Reply) panel maxSteps false q now).steps = 1 := by
  obtain ⟨k, rfl⟩ : ∃ k, maxSteps = k + 1 := ⟨maxSteps - 1, by omega⟩
  exact ⟨rfl, rfl, rfl⟩

/-- C8 witness: the round-trip at the default budget of 20. -/
theorem final_answer_roundtrip_witness :
    (1 ≤ 20)
    ∧ ((getConsensusAnswer (constEnv final42Reply) [] 20 false "Q" "D").result
        = .ok (.Concluded "42")
      ∧ (getConsensusAnswer (constEnv final42Reply) [] 20 false "Q" "D").state.stdout
        = ["42"]
      ∧ (getConsensusAnswer (constEnv final42Reply) [] 20 false "Q" "D").steps = 1) :=
  ⟨by decide, final_answer_roundtrip [] "Q" "D" 20 (by decide)⟩

/-- C9: the conversation history is append-only — across any single step
and any whole run the earlier history is a prefix of the later one (so no
entry is removed, reordered or mutated in place and additions happen only
at the end), and its length never decreases. -/
theorem history_append_only :
    (∀ (env : Env) (panel : List PanelMember) (verbose : Bool) (st : RunState),
      st.history <+: (stepOnce env panel verbose st).state.history
      ∧ st.history.length ≤ (stepOnce env panel verbose st).state.history.length)
    ∧ (∀ (env : Env) (panel : List PanelMember) (verbose : Bool) (fuel : Nat)
        (st : RunState),
      st.history <+: (runLoop env panel verbose fuel st).1.history)
    ∧ (∀ (env : Env) (panel : List PanelMember) (maxSteps : Nat) (verbose : Bool)
        (q now : String),
      initialHistory q now <+:
        (getConsensusAnswer env panel maxSteps verbose q now).state.history) :=
  ⟨fun env panel verbose st =>
    ⟨stepOnce_history_grows env panel verbose st,
     (stepOnce_history_grows env panel verbose st).length_le⟩,
   runLoop_history_grows,
   fun env panel maxSteps verbose q now =>
     runLoop_history_grows env panel verbose maxSteps ⟨initialHistory q now, [], []⟩⟩

/-- A dispatched `llama_panel` call: the session always continues, with
the wrapped panel output appended. -/
theorem stepOnce_llama_panel (env : Env) (panel : List PanelMember)
    (verbose : Bool) (st : RunState) (fields : List (String × Json))
    (hp : jsonParse (env.chat st.history).content = some (.obj fields))
    (ht : toolNameIs (dictGet fields "tool") "llama_panel" = true) :
    stepOnce env panel verbose st = .continued (appendToolOutput
      { st with
          stdout := st.stdout ++ thinkPrints verbose (env.chat st.history),
          history := st.history ++ [⟨"assistant", (env.chat st.history).content⟩] }
      ("Using llama_panel(" ++ getStrD fields "question" "" ++ ") with reason '"
        ++ reasonStrOf fields ++ "'.\nOutput:\n"
        ++ queryPanel env.memberChat panel (getStrD fields "question" "")
            st.toolOutputs)) := by
  simp only [stepOnce, hp, ht, eq_self_iff_true, if_true]

/-- C4: consulting a panel of `k` members yields the `k` rendered
sections joined in registration order — one section per member, each
attributed to that member's model — whatever subset of the member calls
fail; a member that fails yields its explicit per-member error text, and a
dispatched `llama_panel` call always lets the session continue. -/
theorem panel_fanout_completeness (memberChat : Nat → String → MemberCallResult)
    (panel : List PanelMember) (question : String) (toolOutputs : List String) :
    ∃ sections : List String,
      sections.length = panel.length
      ∧ queryPanel memberChat panel question toolOutputs
          = String.intercalate "\n\n---\n\n" sections
      ∧ (∀ (i : Nat) (m : PanelMember), panel[i]? = some m →
          sections[i]? = some (renderPanelResponse m
            (m.queryResult (memberChat i (panelPromptOf question toolOutputs)))))
      ∧ (∀ (i : Nat) (m : PanelMember) (e : String), panel[i]? = some m →
          memberChat i (panelPromptOf question toolOutputs) = .responseError e →
          sections[i]? = some ("Response from '" ++ m.model ++ "':\n"
            ++ ("Error: Could not get a response from model '" ++ m.model ++ "'.")))
      ∧ (∀ (i : Nat) (m : PanelMember) (t : String), panel[i]? = some m →
          memberChat i (panelPromptOf question toolOutputs) = .otherException t →
          sections[i]? = some ("Exception from panelist " ++ m.model ++ ": " ++ t))
      ∧ (∀ (env : Env) (panel2 : List PanelMember) (verbose : Bool) (st : RunState)
          (fields : List (String × Json)),
          jsonParse (env.chat st.history).content = some (.obj fields) →
          toolNameIs (dictGet fields "tool") "llama_panel" = true →
          ∃ st', stepOnce env panel2 verbose st = .continued st') := by
  refine ⟨panel.enum.map fun p =>
      renderPanelResponse p.2 (p.2.queryResult
        (memberChat p.1 (panelPromptOf question toolOutputs))),
    ?_, ?_, ?_, ?_, ?_, ?_⟩
  · simp [List.enum_length]
  · rfl
  · intro i m hm
    simp [List.getElem?_map, List.getElem?_enum, hm]
  · intro i m e hm hfail
    simp [List.getElem?_map, List.getElem?_enum, hm, hfail,
      PanelMember.queryResult, renderPanelResponse]
  · intro i m t hm hfail
    simp [List.getElem?_map, List.getElem?_enum, hm, hfail,
      PanelMember.queryResult, renderPanelResponse]
  · intro env panel2 verbose st fields hp ht
    exact ⟨_, stepOnce_llama_panel env panel2 verbose st fields hp ht⟩

/-- C5: the coordinator builds one prompt and sends that same text to
every member: the question alone when the joined context is empty,
otherwise the question followed by the context header and all prior tool
outputs joined in order; and no step ever accumulates an empty tool
output, so the hypothesis covers every sequence a session can produce. -/
theorem panel_prompt_construction (question : String) (toolOutputs : List String)
    (h : ∀ s ∈ toolOutputs, s ≠ "") :
    (toolOutputs = [] → panelPromptOf question toolOutputs = question)
    ∧ (toolOutputs ≠ [] →
        panelPromptOf question toolOutputs
          = question ++ "\n\nContext from previous tool outputs:\n"
              ++ String.intercalate "\n\n" toolOutputs)
    ∧ (∀ (memberChat : Nat → String → MemberCallResult) (panel : List PanelMember),
        queryPanel memberChat panel question toolOutputs
          = String.intercalate "\n\n---\n\n" (panel.enum.map fun p =>
              renderPanelResponse p.2 (p.2.queryResult
                (memberChat p.1 (panelPromptOf question toolOutputs)))))
    ∧ (∀ (env : Env) (panel : List PanelMember) (verbose : Bool) (st : RunState),
        (∀ s ∈ st.toolOutputs, s ≠ "") →
        ∀ s ∈ (stepOnce env panel verbose st).state.toolOutputs, s ≠ "") := by
  refine ⟨?_, ?_, fun _ _ => rfl, stepOnce_toolOutputs_ne_empty⟩
  · intro he
    subst he
    rfl
  · intro hne
    obtain ⟨a, rest, rfl⟩ : ∃ a rest, toolOutputs = a :: rest := by
      cases toolOutputs with
      | nil => exact absurd rfl hne
      | cons a rest => exact ⟨a, rest, rfl⟩
    have ha : a ≠ "" := h a (by simp)
    have hctx := intercalate_cons_ne_empty "\n\n" a rest ha
    simp [panelPromptOf, hctx]

/-- C5 witness: the concrete `["A","B"]` scenario — the outbound prompt is
exactly the question followed by `A` then `B`. -/
theorem panel_prompt_construction_witness :
    (∀ s ∈ (["A", "B"] : List String), s ≠ "")
    ∧ ((["A", "B"] : List String) ≠ [] →
        panelPromptOf "Q" ["A", "B"]
          = "Q" ++ "\n\nContext from previous tool outputs:\n"
              ++ String.intercalate "\n\n" ["A", "B"])
    ∧ panelPromptOf "Q" ["A", "B"] = "Q\n\nContext from previous tool outputs:\nA\n\nB" :=
  ⟨by decide, (panel_prompt_construction "Q" ["A", "B"] (by decide)).2.1, by decide⟩

end LlamaPanel
